import Mathlib

/-
A shallow embedding of src/rydiqule/sensor_solution.py (class Solution).

Modelling conventions:
* numpy float arithmetic is modelled exactly, over the rationals;
* every solution array keeps one flattened leading scan axis, so rho is a
  list of rows, each row listing the n^2-1 real basis components of one
  scan point; elementwise numpy operations become List.map;
* np.pi, np.exp and np.sqrt are host primitives outside this source file,
  so they are passed in as explicit parameters;
* Python exceptions are modelled by Except with a structured payload: the
  AttributeError raised by _variables_defined carries the list of missing
  variable names that its message enumerates, and the IndexError of
  get_solution_element carries the basis size that its message reports;
* the UserWarning emitted by get_OD is modelled as a Bool paired with the
  returned array;
* sensor_utils.get_rho_ij is an external collaborator that is not part of
  this source file; it enters as an explicit lookup parameter, a function
  from (rho, i, j) to the complex coherence array over the scan axis.
-/

namespace Rydiqule

/-- scipy.constants.c, which is exactly 299792458 (m/s). -/
def speed_of_light : ℚ := 299792458

/-- A complex scalar, as the exact model of one entry of a numpy complex
array: real and imaginary components. -/
structure Cx where
  re : ℚ
  im : ℚ
  deriving DecidableEq, Repr

/-- Elementwise product of a complex entry with a real scalar on the right,
as in the numpy expression rho_probe * 2. -/
def Cx.mulr (z : Cx) (a : ℚ) : Cx := ⟨z.re * a, z.im * a⟩

/-- Product of a real scalar with a complex entry on the right, as in the
numpy expression kappa * (...). -/
def Cx.rmul (a : ℚ) (z : Cx) : Cx := ⟨a * z.re, a * z.im⟩

/-- Quotient of a complex entry by a real scalar, as in the numpy
expression (...) / (probe_freq * (probe_rabi/2)). -/
def Cx.divr (z : Cx) (a : ℚ) : Cx := ⟨z.re / a, z.im / a⟩

/-- The Python exceptions this module can raise, with structured payloads
standing for the data interpolated into their messages. -/
inductive PyErr where
  | attributeError (missing : List String)
  | indexError (basisSize : ℚ)
  | typeError (msg : String)
  deriving DecidableEq, Repr

/-- The fields of the Solution container that the derived-quantity
operations read.  Optional experimental parameters are None-able, exactly
the fields listed in sensor_solution.py; metadata fields (couplings,
axis_labels, axis_values, rq_version, basis, ...) are never read by the
operations modelled here and are omitted. -/
structure Solution where
  rho : List (List ℚ)
  eta : Option ℚ
  kappa : Option ℚ
  probe_tuple : Option (ℕ × ℕ)
  probe_freq : Option ℚ
  probe_rabi : Option ℚ
  cell_length : Option ℚ
  beam_area : Option ℚ
  deriving DecidableEq, Repr

/-- The dictionary lookup self[var] restricted to the question
_variables_defined asks of it: is the named field None?  Field names not
in the optional-parameter set are never None. -/
def Solution.fieldIsNone (s : Solution) (v : String) : Bool :=
  match v with
  | "eta" => s.eta.isNone
  | "kappa" => s.kappa.isNone
  | "probe_tuple" => s.probe_tuple.isNone
  | "probe_freq" => s.probe_freq.isNone
  | "probe_rabi" => s.probe_rabi.isNone
  | "cell_length" => s.cell_length.isNone
  | "beam_area" => s.beam_area.isNone
  | _ => false

/-- Solution._variables_defined: collect the names among var_names whose
field is None and raise AttributeError listing exactly them when the
collection is nonempty. -/
def Solution.variables_defined (s : Solution) (var_names : List String) :
    Except PyErr Unit :=
  let undef_vars := var_names.filter (fun v => s.fieldIsNone v)
  if undef_vars.length ≠ 0 then
    .error (.attributeError undef_vars)
  else
    .ok ()

/-- Decidable equality for Except results, so witnesses can be checked by
evaluation. -/
instance {e a : Type} [DecidableEq e] [DecidableEq a] :
    DecidableEq (Except e a) := fun x y =>
  match x, y with
  | .error u, .error v =>
    if h : u = v then isTrue (by rw [h])
    else isFalse (by intro hc; cases hc; exact h rfl)
  | .error _, .ok _ => isFalse (by intro hc; cases hc)
  | .ok _, .error _ => isFalse (by intro hc; cases hc)
  | .ok u, .ok v =>
    if h : u = v then isTrue (by rw [h])
    else isFalse (by intro hc; cases hc; exact h rfl)

/-- The type of the external collaborator sensor_utils.get_rho_ij:
from the stored rho and basis indices i, j to the complex (i, j) coherence
for every scan point. -/
abbrev Lookup := List (List ℚ) → ℕ → ℕ → List Cx

/-- Solution.rho_ij: delegate to the external basis-indexing routine. -/
def Solution.rho_ij (lookup : Lookup) (s : Solution) (i j : ℕ) : List Cx :=
  lookup s.rho i j

/-- The size of the last axis of rho (rho.shape[-1]); the embedding keeps
rho rectangular, so the first row's length is used, as numpy's shape is
uniform across rows. -/
def Solution.lastDim (s : Solution) : ℕ := (s.rho.headD []).length

/-- Solution.get_solution_element: rho.take(idx, axis=-1), re-raising the
out-of-range IndexError with the basis size np.sqrt(rho.shape[-1] + 1)
in its message.  sqrtFn is the host np.sqrt primitive. -/
def Solution.get_solution_element (sqrtFn : ℚ → ℚ) (s : Solution)
    (idx : ℕ) : Except PyErr (List ℚ) :=
  let basis_size := sqrtFn ((s.lastDim : ℚ) + 1)
  if idx < s.lastDim then
    .ok (s.rho.map (fun row => row.getD idx 0))
  else
    .error (.indexError basis_size)

/-- Solution.get_susceptibility.  Checks probe_rabi, kappa, probe_freq,
then evaluates self.probe_tuple[::-1] (a TypeError when probe_tuple is
None), then returns kappa * (rho_probe * 2*c) / (probe_freq *
(probe_rabi/2)) with probe_rabi scaled by 1e6 and rho_probe the reversed
probe-tuple coherence. -/
def Solution.get_susceptibility (lookup : Lookup) (s : Solution) :
    Except PyErr (List Cx) :=
  match s.variables_defined ["probe_rabi", "kappa", "probe_freq"] with
  | .error e => .error e
  | .ok _ =>
    match s.probe_tuple with
    | none => .error (.typeError "NoneType object is not subscriptable")
    | some pt =>
      let probe_rabi : ℚ := s.probe_rabi.getD 0 * 1000000
      let kappa : ℚ := s.kappa.getD 0
      let probe_freq : ℚ := s.probe_freq.getD 0
      let rho_probe : List Cx := s.rho_ij lookup pt.2 pt.1
      .ok (rho_probe.map (fun z =>
        (Cx.rmul kappa ((z.mulr 2).mulr speed_of_light)).divr
          (probe_freq * (probe_rabi / 2))))

/-- Solution.get_OD.  Checks probe_freq and cell_length, then computes
wavelength, wavevector and the optical depth array, pairing it with the
Bool recording whether the greater-than-one UserWarning fired.  piQ is
the host np.pi primitive. -/
def Solution.get_OD (lookup : Lookup) (piQ : ℚ) (s : Solution) :
    Except PyErr (List ℚ × Bool) :=
  match s.variables_defined ["probe_freq", "cell_length"] with
  | .error e => .error e
  | .ok _ =>
    match s.get_susceptibility lookup with
    | .error e => .error e
    | .ok susc =>
      let probe_wavelength : ℚ :=
        |speed_of_light / (s.probe_freq.getD 0 / (2 * piQ))|
      let probe_wavevector : ℚ := 2 * piQ / probe_wavelength
      let OD := susc.map (fun z =>
        z.im * s.cell_length.getD 0 * probe_wavevector)
      .ok (OD, OD.any (fun od => decide (1 < od)))

/-- The optical-depth values alone, by the same formula as get_OD but
with no warning logic at all; used to state that the warning never
alters the returned array. -/
def Solution.OD_value (lookup : Lookup) (piQ : ℚ) (s : Solution) :
    List ℚ :=
  match s.get_susceptibility lookup with
  | .error _ => []
  | .ok susc =>
    susc.map (fun z =>
      z.im * s.cell_length.getD 0 *
        (2 * piQ / |speed_of_light / (s.probe_freq.getD 0 / (2 * piQ))|))

/-- Solution.get_transmission_coef: np.exp(-OD) over the get_OD result,
propagating its error and its warning.  expFn is the host np.exp. -/
def Solution.get_transmission_coef (lookup : Lookup) (piQ : ℚ)
    (expFn : ℚ → ℚ) (s : Solution) : Except PyErr (List ℚ × Bool) :=
  match s.get_OD lookup piQ with
  | .error e => .error e
  | .ok ODw => .ok (ODw.1.map (fun od => expFn (-od)), ODw.2)

/-- Solution.get_phase_shift.  Checks probe_rabi, kappa, cell_length,
obtains the susceptibility (whose own check covers probe_freq), then
returns (1 + susc.real/2) * cell_length * wavevector.  The probe_freq
read on the wavelength line is only reached after get_susceptibility
succeeded, which guarantees it is not None. -/
def Solution.get_phase_shift (lookup : Lookup) (piQ : ℚ) (s : Solution) :
    Except PyErr (List ℚ) :=
  match s.variables_defined ["probe_rabi", "kappa", "cell_length"] with
  | .error e => .error e
  | .ok _ =>
    match s.get_susceptibility lookup with
    | .error e => .error e
    | .ok susc =>
      let wavelength : ℚ := 2 * piQ * speed_of_light / s.probe_freq.getD 0
      let wavevector : ℚ := 2 * piQ / wavelength
      .ok (susc.map (fun z =>
        (1 + z.re / 2) * s.cell_length.getD 0 * wavevector))

/-- A Python value held in a Solution field, for the object-identity
model: None, a rational scalar, an index pair, a reference to a mutable
numpy array on the array heap, or a string. -/
inductive PyVal where
  | vnone
  | vrat (q : ℚ)
  | vpair (i j : ℕ)
  | varr (r : ℕ)
  | vstr (s : String)
  deriving DecidableEq, Repr

/-- The field map of one dict object: Solution subclasses dict, so the
contents of the object are name/value pairs. -/
abbrev Obj := List (String × PyVal)

/-- The store of dict objects, addressed by reference. -/
abbrev DictHeap := List Obj

/-- The store of mutable numpy arrays, addressed by reference. -/
abbrev ArrHeap := List (List ℚ)

/-- One Solution object: as a dict instance it owns the dict entries at
dict_ref, and its attribute namespace reads self.__dict__ at attr_ref. -/
structure PyObj where
  dict_ref : ℕ
  attr_ref : ℕ
  deriving DecidableEq, Repr

/-- Set or append a key in a field map. -/
def insertField (st : Obj) (k : String) (v : PyVal) : Obj :=
  match st with
  | [] => [(k, v)]
  | (k0, v0) :: rest =>
    if k0 = k then (k, v) :: rest else (k0, v0) :: insertField rest k v

/-- Solution.__init__(**kwargs): allocate the dict contents, then alias
self.__dict__ to the dict itself (the assignment on line 80 of the
source), so both references name the single new store. -/
def Solution.init (h : DictHeap) (kwargs : Obj) : DictHeap × PyObj :=
  (h ++ [kwargs], ⟨h.length, h.length⟩)

/-- Key access C[f]: read the dict contents. -/
def getitem (h : DictHeap) (o : PyObj) (k : String) : Option PyVal :=
  List.lookup k (h.getD o.dict_ref [])

/-- Attribute access C.f: read self.__dict__. -/
def getattr (h : DictHeap) (o : PyObj) (f : String) : Option PyVal :=
  List.lookup f (h.getD o.attr_ref [])

/-- Key assignment C[f] = v: update the dict contents in place. -/
def setitem (h : DictHeap) (o : PyObj) (k : String) (v : PyVal) :
    DictHeap :=
  h.set o.dict_ref (insertField (h.getD o.dict_ref []) k v)

/-- Attribute assignment C.f = v: update self.__dict__ in place. -/
def setattr (h : DictHeap) (o : PyObj) (f : String) (v : PyVal) :
    DictHeap :=
  h.set o.attr_ref (insertField (h.getD o.attr_ref []) f v)

/-- copy.copy of the container (Solution.copy): a fresh dict object
holding the same key/value pairs, so array references inside it are
shared with the original. -/
def copyObj (h : DictHeap) (o : PyObj) : DictHeap × PyObj :=
  (h ++ [h.getD o.dict_ref []], ⟨h.length, h.length⟩)

/-- copy.deepcopy of one stored value: array references are redirected
to the cloned arrays; immediate values are unchanged. -/
def deepcopyVal (off : ℕ) : PyVal → PyVal
  | .varr r => .varr (off + r)
  | v => v

/-- copy.deepcopy of the container (Solution.deepcopy): clone the array
heap (the clone of the array at r lives at ah.length + r, preserving
aliasing among cloned arrays the way the deepcopy memo does) and build a
fresh dict whose array fields point at the clones. -/
def deepcopyObj (h : DictHeap) (ah : ArrHeap) (o : PyObj) :
    DictHeap × ArrHeap × PyObj :=
  let store := h.getD o.dict_ref []
  let store2 := store.map (fun kv => (kv.1, deepcopyVal ah.length kv.2))
  (h ++ [store2], ah ++ ah, ⟨h.length, h.length⟩)

/-- Read field f of a container as a numpy array (dereference the array
heap). -/
def readArrField (h : DictHeap) (ah : ArrHeap) (o : PyObj) (f : String) :
    Option (List ℚ) :=
  match getitem h o f with
  | some (.varr r) => some (ah.getD r [])
  | _ => none

/-- In-place element mutation arr[i] = x of the array at reference r. -/
def writeArr (ah : ArrHeap) (r i : ℕ) (x : ℚ) : ArrHeap :=
  ah.set r ((ah.getD r []).set i x)

/-! Helper lemmas about lists, shared by the theorems below. -/

theorem getD_append_length {α : Type} (l : List α) (x d : α) :
    (l ++ [x]).getD l.length d = x := by
  rw [List.getD_eq_getElem?_getD, List.getElem?_append_right (Nat.le_refl _)]
  simp

theorem getD_append_left_of_lt {α : Type} (l l2 : List α) (k : ℕ) (d : α)
    (hk : k < l.length) :
    (l ++ l2).getD k d = l.getD k d := by
  rw [List.getD_eq_getElem?_getD, List.getElem?_append_left hk,
    List.getD_eq_getElem?_getD]

theorem getD_append_add {α : Type} (l l2 : List α) (k : ℕ) (d : α) :
    (l ++ l2).getD (l.length + k) d = l2.getD k d := by
  rw [List.getD_eq_getElem?_getD,
    List.getElem?_append_right (Nat.le_add_right _ _), List.getD_eq_getElem?_getD]
  simp

theorem getD_set_self_of_lt {α : Type} (l : List α) (k : ℕ) (a d : α)
    (hk : k < l.length) :
    (l.set k a).getD k d = a := by
  rw [List.getD_eq_getElem?_getD, List.getElem?_set_self hk]
  rfl

theorem getD_set_other {α : Type} (l : List α) (k k2 : ℕ) (a d : α)
    (hne : k ≠ k2) :
    (l.set k a).getD k2 d = l.getD k2 d := by
  rw [List.getD_eq_getElem?_getD, List.getElem?_set_ne hne,
    List.getD_eq_getElem?_getD]

theorem set_append_length {α : Type} (l : List α) (x y : α) :
    (l ++ [x]).set l.length y = l ++ [y] := by
  rw [List.set_append_right _ _ (Nat.le_refl _)]
  simp

theorem lookup_insertField (st : Obj) (k : String) (v : PyVal) :
    List.lookup k (insertField st k v) = some v := by
  induction st with
  | nil => simp [insertField, List.lookup_cons]
  | cons kv rest ih =>
    by_cases hk : kv.1 = k
    · simp [insertField, hk, List.lookup_cons]
    · simp only [insertField]
      rw [if_neg hk]
      rw [List.lookup_cons]
      have : (k == kv.1) = false := by
        simp [Ne.symm hk]
      simp [this, ih]

theorem lookup_map_snd (st : Obj) (k : String) (fn : PyVal → PyVal) :
    List.lookup k (st.map (fun kv => (kv.1, fn kv.2))) =
      (List.lookup k st).map fn := by
  induction st with
  | nil => simp
  | cons kv rest ih =>
    obtain ⟨k0, v0⟩ := kv
    by_cases hk : k = k0
    · simp [List.lookup_cons, hk]
    · have : (k == k0) = false := by simp [hk]
      simp [List.lookup_cons, this, ih]

/-! Concrete inputs used by the witnesses. -/

/-- A concrete basis-indexing collaborator: component i is the real part
and component j the imaginary part of the (i, j) coherence. -/
def lookup1 : Lookup := fun rho i j =>
  rho.map (fun row => ⟨row.getD i 0, row.getD j 0⟩)

/-- A concrete degenerate basis-indexing collaborator returning zero
coherences; it keeps the leading scan shape. -/
def lookup0 : Lookup := fun rho _ _ =>
  rho.map (fun _ => ⟨0, 0⟩)

/-- A concrete container with all probe parameters defined. -/
def s1 : Solution :=
  ⟨[[1, 2, 3]], none, some 3, some (0, 1), some 5, some 2, some 7, none⟩

/-- C1: when probe_rabi, kappa, probe_freq and probe_tuple are defined,
get_susceptibility returns kappa * (rho_probe * 2 * speed_of_light) /
(probe_freq * (probe_rabi_rad / 2)) componentwise, where probe_rabi_rad is
the stored probe_rabi times 1e6, speed_of_light is exactly 299792458, and
rho_probe is the element lookup applied with the probe_tuple indices
reversed. -/
theorem get_susceptibility_formula (lookup : Lookup) (s : Solution)
    (pr k f : ℚ) (i j : ℕ)
    (hpr : s.probe_rabi = some pr) (hk : s.kappa = some k)
    (hf : s.probe_freq = some f) (ht : s.probe_tuple = some (i, j)) :
    s.get_susceptibility lookup =
      .ok ((lookup s.rho j i).map (fun z =>
        Cx.mk (k * (z.re * 2 * 299792458) / (f * (pr * 1000000 / 2)))
              (k * (z.im * 2 * 299792458) / (f * (pr * 1000000 / 2))))) := by
  simp [Solution.get_susceptibility, Solution.variables_defined,
    Solution.fieldIsNone, Solution.rho_ij, hpr, hk, hf, ht,
    Cx.mulr, Cx.rmul, Cx.divr, speed_of_light]

/-- Witness for C1 at the concrete container s1 and collaborator
lookup1. -/
theorem get_susceptibility_formula_witness :
    Solution.get_susceptibility lookup1 s1 =
      .ok ((lookup1 s1.rho 1 0).map (fun z =>
        Cx.mk (3 * (z.re * 2 * 299792458) / (5 * (2 * 1000000 / 2)))
              (3 * (z.im * 2 * 299792458) / (5 * (2 * 1000000 / 2))))) :=
  get_susceptibility_formula lookup1 s1 2 3 5 0 1 rfl rfl rfl rfl

/-- A concrete container with probe_rabi, kappa and probe_freq defined
but probe_tuple None. -/
def s2 : Solution :=
  ⟨[[0]], none, some 1, none, some 1, some 1, none, none⟩

/-- C2 counterexample: on s2 all of probe_rabi, kappa and probe_freq are
defined, yet get_susceptibility does not succeed: reversing the unchecked
None probe_tuple raises a TypeError, refuting the claim that the call
succeeds whenever the three checked parameters are defined. -/
theorem get_susceptibility_success_counterexample :
    s2.probe_rabi.isSome = true ∧ s2.kappa.isSome = true ∧
      s2.probe_freq.isSome = true ∧
      s2.get_susceptibility lookup1 =
        .error (.typeError "NoneType object is not subscriptable") :=
  ⟨rfl, rfl, rfl, rfl⟩

/-- C2 amended: get_susceptibility raises the missing-parameter error iff
at least one of probe_rabi, kappa, probe_freq is None, the error payload
enumerates exactly the missing names among those three, and when all
three AND probe_tuple are defined the call succeeds and returns a complex
array with the leading scan shape of rho (given the collaborator contract
that the element lookup preserves the leading shape). -/
theorem get_susceptibility_contract (lookup : Lookup) (s : Solution)
    (hl : ∀ rho i j, (lookup rho i j).length = rho.length) :
    ((∃ miss, s.get_susceptibility lookup = .error (.attributeError miss)) ↔
      (s.probe_rabi = none ∨ s.kappa = none ∨ s.probe_freq = none)) ∧
    (∀ miss, s.get_susceptibility lookup = .error (.attributeError miss) →
      miss = (if s.probe_rabi = none then ["probe_rabi"] else []) ++
        (if s.kappa = none then ["kappa"] else []) ++
        (if s.probe_freq = none then ["probe_freq"] else [])) ∧
    (s.probe_rabi ≠ none → s.kappa ≠ none → s.probe_freq ≠ none →
      s.probe_tuple ≠ none →
      ∃ v, s.get_susceptibility lookup = .ok v ∧ v.length = s.rho.length) := by
  cases hpr : s.probe_rabi <;> cases hk : s.kappa <;>
    cases hf : s.probe_freq <;> cases ht : s.probe_tuple <;>
    simp_all [Solution.get_susceptibility, Solution.variables_defined,
      Solution.fieldIsNone, Solution.rho_ij, hl]

/-- Witness for the amended C2, instantiated at s1 and lookup1. -/
theorem get_susceptibility_contract_witness :
    ((∃ miss, s1.get_susceptibility lookup1 =
        .error (.attributeError miss)) ↔
      (s1.probe_rabi = none ∨ s1.kappa = none ∨ s1.probe_freq = none)) ∧
    (∀ miss, s1.get_susceptibility lookup1 = .error (.attributeError miss) →
      miss = (if s1.probe_rabi = none then ["probe_rabi"] else []) ++
        (if s1.kappa = none then ["kappa"] else []) ++
        (if s1.probe_freq = none then ["probe_freq"] else [])) ∧
    (s1.probe_rabi ≠ none → s1.kappa ≠ none → s1.probe_freq ≠ none →
      s1.probe_tuple ≠ none →
      ∃ v, s1.get_susceptibility lookup1 = .ok v ∧
        v.length = s1.rho.length) :=
  get_susceptibility_contract lookup1 s1
    (fun rho i j => by simp [lookup1])

/-- A concrete 3-level container: rho has 3^2 - 1 = 8 slots per scan
point. -/
def s3 : Solution :=
  ⟨[[0, 0, 0, 0, 0, 0, 0, 0]], none, none, none, none, none, none, none⟩

/-- A concrete host sqrt primitive adequate at the one point used by the
C3 witness (IEEE sqrt is exact on exactly representable perfect
squares). -/
def sqrtFn3 : ℚ → ℚ := fun q => if q = 9 then 3 else 0

/-- C3: for an n-level system (rho last axis of size n^2 - 1),
get_solution_element succeeds on every index below n^2 - 1 and raises the
IndexError at index n^2 - 1, reporting the basis size n, which is what
round(sqrt(last_dim_size + 1)) computes, as the host sqrt is exact on
perfect squares. -/
theorem get_solution_element_bounds (sqrtFn : ℚ → ℚ) (s : Solution)
    (n : ℕ) (hn : 1 ≤ n) (hrho : s.lastDim = n ^ 2 - 1)
    (hsqrt : sqrtFn ((n : ℚ) ^ 2) = n) :
    (∀ idx, idx < n ^ 2 - 1 →
      ∃ v, s.get_solution_element sqrtFn idx = .ok v) ∧
    s.get_solution_element sqrtFn (n ^ 2 - 1) =
      .error (.indexError (n : ℚ)) := by
  have h1 : 1 ≤ n ^ 2 := Nat.one_le_pow _ _ (by omega)
  have hcast : ((n ^ 2 - 1 : ℕ) : ℚ) + 1 = (n : ℚ) ^ 2 := by
    rw [Nat.cast_sub h1]
    push_cast
    ring
  constructor
  · intro idx hidx
    refine ⟨s.rho.map (fun row => row.getD idx 0), ?_⟩
    simp [Solution.get_solution_element, hrho, hidx]
  · simp [Solution.get_solution_element, hrho, hcast, hsqrt]

/-- Witness for C3 at the 3-level container s3: indices 0..7 succeed and
index 8 raises the IndexError reporting basis size 3. -/
theorem get_solution_element_bounds_witness :
    (∀ idx, idx < 3 ^ 2 - 1 →
      ∃ v, s3.get_solution_element sqrtFn3 idx = .ok v) ∧
    s3.get_solution_element sqrtFn3 (3 ^ 2 - 1) =
      .error (.indexError ((3 : ℕ) : ℚ)) :=
  get_solution_element_bounds sqrtFn3 s3 3 (by norm_num) (by rfl)
    (by norm_num [sqrtFn3])

/-- C4: when probe_freq and cell_length are defined and the
susceptibility computation succeeds, get_OD returns
imag(susceptibility) * cell_length * wavevector, with wavelength =
|speed_of_light / (probe_freq / (2 pi))| and wavevector =
2 pi / wavelength; the Bool is the warning channel. -/
theorem get_OD_formula (lookup : Lookup) (piQ : ℚ) (s : Solution)
    (f L : ℚ) (susc : List Cx)
    (hf : s.probe_freq = some f) (hL : s.cell_length = some L)
    (hs : s.get_susceptibility lookup = .ok susc) :
    s.get_OD lookup piQ =
      .ok (susc.map (fun z =>
          z.im * L * (2 * piQ / |speed_of_light / (f / (2 * piQ))|)),
        (susc.map (fun z =>
          z.im * L * (2 * piQ / |speed_of_light / (f / (2 * piQ))|))).any
            (fun od => decide (1 < od))) := by
  simp [Solution.get_OD, Solution.variables_defined, Solution.fieldIsNone,
    hf, hL, hs]

/-- The zero coherence array produced by lookup0 on the single-row rho of
s1, and the susceptibility it induces. -/
def susc0 : List Cx := [⟨0, 0⟩]

/-- Witness for C4 at s1 with the degenerate collaborator lookup0 and
pi taken as 3. -/
theorem get_OD_formula_witness :
    Solution.get_OD lookup0 3 s1 =
      .ok (susc0.map (fun z =>
          z.im * 7 * (2 * 3 / |speed_of_light / (5 / (2 * 3))|)),
        (susc0.map (fun z =>
          z.im * 7 * (2 * 3 / |speed_of_light / (5 / (2 * 3))|))).any
            (fun od => decide (1 < od))) :=
  get_OD_formula lookup0 3 s1 5 7 susc0 rfl rfl
    (by norm_num [Solution.get_susceptibility, Solution.variables_defined,
      Solution.fieldIsNone, Solution.rho_ij, lookup0, s1, susc0,
      Cx.mulr, Cx.rmul, Cx.divr, speed_of_light])

/-- C5: whenever get_OD returns, the warning flag is set iff at least one
optical-depth value exceeds 1, and the returned array equals the
warning-free formula OD_value, so emitting the warning never changes the
returned array. -/
theorem get_OD_warning_iff (lookup : Lookup) (piQ : ℚ) (s : Solution)
    (od : List ℚ) (w : Bool)
    (h : s.get_OD lookup piQ = .ok (od, w)) :
    (w = true ↔ ∃ x ∈ od, 1 < x) ∧ od = s.OD_value lookup piQ := by
  unfold Solution.get_OD at h
  split at h
  · exact absurd h (by simp)
  · split at h
    · exact absurd h (by simp)
    · rename_i susc hs
      simp only [Except.ok.injEq, Prod.mk.injEq] at h
      obtain ⟨hod, hw⟩ := h
      constructor
      · rw [← hw, ← hod]
        simp [List.any_eq_true]
      · rw [← hod]
        unfold Solution.OD_value
        rw [hs]

/-- Witness for C5 at s1 with lookup0, where no warning fires. -/
theorem get_OD_warning_iff_witness :
    ((false = true) ↔ ∃ x ∈ ([0] : List ℚ), 1 < x) ∧
      ([0] : List ℚ) = s1.OD_value lookup0 3 :=
  get_OD_warning_iff lookup0 3 s1 [0] false
    (by norm_num [Solution.get_OD, Solution.get_susceptibility,
      Solution.variables_defined, Solution.fieldIsNone, Solution.rho_ij,
      lookup0, s1, Cx.mulr, Cx.rmul, Cx.divr, speed_of_light])

/-- C6: get_transmission_coef propagates every failure of get_OD
unchanged (warning flag included), and on success returns exp(-OD)
elementwise with the same shape as the OD array. -/
theorem get_transmission_coef_spec (lookup : Lookup) (piQ : ℚ)
    (expFn : ℚ → ℚ) (s : Solution) :
    (∀ e, s.get_OD lookup piQ = .error e →
      s.get_transmission_coef lookup piQ expFn = .error e) ∧
    (∀ od w, s.get_OD lookup piQ = .ok (od, w) →
      s.get_transmission_coef lookup piQ expFn =
        .ok (od.map (fun x => expFn (-x)), w) ∧
      (od.map (fun x => expFn (-x))).length = od.length) := by
  constructor
  · intro e he
    simp [Solution.get_transmission_coef, he]
  · intro od w hw
    simp [Solution.get_transmission_coef, hw]

/-- A concrete host exp primitive for the C6 witness. -/
def expFn0 : ℚ → ℚ := fun q => 1 + q

/-- Witness for C6 at s1 with lookup0 and pi taken as 3. -/
theorem get_transmission_coef_spec_witness :
    Solution.get_transmission_coef lookup0 3 expFn0 s1 =
        .ok (([0] : List ℚ).map (fun x => expFn0 (-x)), false) ∧
      (([0] : List ℚ).map (fun x => expFn0 (-x))).length =
        ([0] : List ℚ).length :=
  (get_transmission_coef_spec lookup0 3 expFn0 s1).2 [0] false
    (by norm_num [Solution.get_OD, Solution.get_susceptibility,
      Solution.variables_defined, Solution.fieldIsNone, Solution.rho_ij,
      lookup0, s1, Cx.mulr, Cx.rmul, Cx.divr, speed_of_light])

/-- C7: a container built by Solution.__init__ has one backing store:
its attribute namespace reference equals its dict reference, key and
attribute reads agree on every field, and a value set through either
view is observed through the other. -/
theorem dict_attr_single_store (h : DictHeap) (kwargs : Obj) (f : String)
    (v : PyVal) :
    ((Solution.init h kwargs).2.attr_ref =
      (Solution.init h kwargs).2.dict_ref) ∧
    (getattr (Solution.init h kwargs).1 (Solution.init h kwargs).2 f =
      getitem (Solution.init h kwargs).1 (Solution.init h kwargs).2 f) ∧
    (getitem (setattr (Solution.init h kwargs).1
        (Solution.init h kwargs).2 f v) (Solution.init h kwargs).2 f =
      some v) ∧
    (getattr (setitem (Solution.init h kwargs).1
        (Solution.init h kwargs).2 f v) (Solution.init h kwargs).2 f =
      some v) := by
  refine ⟨rfl, rfl, ?_, ?_⟩ <;>
    simp [Solution.init, getitem, getattr, setitem, setattr,
      getD_append_length, set_append_length, lookup_insertField]

/-- C9: when probe_rabi, kappa and cell_length are defined and the
susceptibility computation succeeds (probe_freq being some f),
get_phase_shift returns refractive_index * cell_length * wavevector with
refractive_index = 1 + real(susceptibility)/2, wavelength =
2 pi speed_of_light / probe_freq and wavevector = 2 pi / wavelength. -/
theorem get_phase_shift_formula (lookup : Lookup) (piQ : ℚ)
    (s : Solution) (pr k L f : ℚ) (susc : List Cx)
    (hpr : s.probe_rabi = some pr) (hk : s.kappa = some k)
    (hL : s.cell_length = some L) (hf : s.probe_freq = some f)
    (hs : s.get_susceptibility lookup = .ok susc) :
    s.get_phase_shift lookup piQ =
      .ok (susc.map (fun z =>
        (1 + z.re / 2) * L *
          (2 * piQ / (2 * piQ * speed_of_light / f)))) := by
  simp [Solution.get_phase_shift, Solution.variables_defined,
    Solution.fieldIsNone, hpr, hk, hL, hf, hs]

/-- Witness for C9 at s1 with lookup0 and pi taken as 3. -/
theorem get_phase_shift_formula_witness :
    Solution.get_phase_shift lookup0 3 s1 =
      .ok (susc0.map (fun z =>
        (1 + z.re / 2) * 7 *
          (2 * 3 / (2 * 3 * speed_of_light / 5)))) :=
  get_phase_shift_formula lookup0 3 s1 2 3 7 5 susc0 rfl rfl rfl rfl
    (by norm_num [Solution.get_susceptibility, Solution.variables_defined,
      Solution.fieldIsNone, Solution.rho_ij, lookup0, s1, susc0,
      Cx.mulr, Cx.rmul, Cx.divr, speed_of_light])

/-- C10: when probe_freq is None but probe_rabi, kappa and cell_length
are defined, get_phase_shift fails with the missing-parameter error
naming exactly probe_freq, raised by the nested get_susceptibility
check before the division by probe_freq is ever reached. -/
theorem get_phase_shift_missing_probe_freq (lookup : Lookup) (piQ : ℚ)
    (s : Solution) (pr k L : ℚ)
    (hpr : s.probe_rabi = some pr) (hk : s.kappa = some k)
    (hL : s.cell_length = some L) (hf : s.probe_freq = none) :
    s.get_phase_shift lookup piQ =
      .error (.attributeError ["probe_freq"]) := by
  simp [Solution.get_phase_shift, Solution.get_susceptibility,
    Solution.variables_defined, Solution.fieldIsNone, hpr, hk, hL, hf]

/-- A concrete container with probe_freq None but probe_rabi, kappa and
cell_length defined. -/
def s5 : Solution :=
  ⟨[[0]], none, some 1, some (0, 1), none, some 1, some 1, none⟩

/-- Witness for C10 at the concrete container s5. -/
theorem get_phase_shift_missing_probe_freq_witness :
    Solution.get_phase_shift lookup0 3 s5 =
      .error (.attributeError ["probe_freq"]) :=
  get_phase_shift_missing_probe_freq lookup0 3 s5 1 1 1 rfl rfl rfl rfl

/-- C8: after deepcopy every array field of the clone has the original's
contents, and mutating any array reachable from the deepcopy never
changes any array read from the original; after copy the field names the
very same array reference, and mutating that shared array changes what
the original reads (the copy allocation itself changing nothing). -/
theorem copy_deepcopy_aliasing (h : DictHeap) (ah : ArrHeap) (o : PyObj)
    (f : String) (r i : ℕ) (x : ℚ)
    (ho : o.dict_ref < h.length)
    (har : ∀ g r0, getitem h o g = some (.varr r0) → r0 < ah.length)
    (hf : getitem h o f = some (.varr r))
    (hi : i < (ah.getD r []).length)
    (hx : x ≠ (ah.getD r []).getD i 0) :
    (∀ g, readArrField (deepcopyObj h ah o).1 (deepcopyObj h ah o).2.1
        (deepcopyObj h ah o).2.2 g = readArrField h ah o g) ∧
    (∀ g rd j y g2,
      getitem (deepcopyObj h ah o).1 (deepcopyObj h ah o).2.2 g =
        some (.varr rd) →
      readArrField (deepcopyObj h ah o).1
          (writeArr (deepcopyObj h ah o).2.1 rd j y) o g2 =
        readArrField h ah o g2) ∧
    (getitem (copyObj h o).1 (copyObj h o).2 f = some (.varr r)) ∧
    (readArrField (copyObj h o).1 (writeArr ah r i x) o f ≠
      readArrField (copyObj h o).1 ah o f) ∧
    (readArrField (copyObj h o).1 ah o f = readArrField h ah o f) := by
  have hr : r < ah.length := har f r hf
  have hread : ∀ (ah2 : ArrHeap),
      readArrField (copyObj h o).1 ah2 o f = some (ah2.getD r []) := by
    intro ah2
    simp only [copyObj, readArrField, getitem]
    rw [getD_append_left_of_lt _ _ _ _ ho,
      show List.lookup f (h.getD o.dict_ref []) = some (PyVal.varr r)
        from hf]
  refine ⟨?_, ?_, ?_, ?_, ?_⟩
  · intro g
    simp only [deepcopyObj, readArrField, getitem]
    rw [getD_append_length, lookup_map_snd]
    cases hv : List.lookup g (h.getD o.dict_ref []) with
    | none => simp
    | some v =>
      cases v with
      | vnone => simp [deepcopyVal]
      | vrat q => simp [deepcopyVal]
      | vpair a b => simp [deepcopyVal]
      | vstr t => simp [deepcopyVal]
      | varr r0 =>
        simp [deepcopyVal]
        rw [List.getElem?_append_right (Nat.le_add_right _ _)]
        simp
  · intro g rd j y g2 hd
    simp only [deepcopyObj, getitem] at hd
    rw [getD_append_length, lookup_map_snd] at hd
    cases hv : List.lookup g (h.getD o.dict_ref []) with
    | none => rw [hv] at hd; simp at hd
    | some v =>
      rw [hv] at hd
      cases v with
      | vnone => simp [deepcopyVal] at hd
      | vrat q => simp [deepcopyVal] at hd
      | vpair a b => simp [deepcopyVal] at hd
      | vstr t => simp [deepcopyVal] at hd
      | varr r0 =>
        simp only [Option.map_some', deepcopyVal, Option.some.injEq,
          PyVal.varr.injEq] at hd
        simp only [deepcopyObj, readArrField, getitem]
        rw [getD_append_left_of_lt _ _ _ _ ho]
        cases hv2 : List.lookup g2 (h.getD o.dict_ref []) with
        | none => simp
        | some v2 =>
          cases v2 with
          | vnone => simp
          | vrat q2 => simp
          | vpair a2 b2 => simp
          | vstr t2 => simp
          | varr r2 =>
            have hr2 : r2 < ah.length := har g2 r2 hv2
            simp only [Option.some.injEq, writeArr]
            rw [getD_set_other _ _ _ _ _ (by omega),
              getD_append_left_of_lt _ _ _ _ hr2]
  · simp only [copyObj, getitem]
    rw [getD_append_length]
    exact hf
  · rw [hread, hread]
    simp only [writeArr]
    rw [getD_set_self_of_lt _ _ _ _ hr]
    intro heq
    have heq2 : (ah.getD r []).set i x = ah.getD r [] := by
      simpa using heq
    have heq3 : ((ah.getD r []).set i x).getD i 0 =
        (ah.getD r []).getD i 0 := by rw [heq2]
    rw [getD_set_self_of_lt _ _ _ _ hi] at heq3
    exact hx heq3
  · rw [hread]
    simp only [readArrField, getitem]
    rw [show List.lookup f (h.getD o.dict_ref []) = some (PyVal.varr r)
      from hf]

theorem lookup_pair_cases (g k1 k2 : String) (v1 v2 v : PyVal)
    (hl : List.lookup g [(k1, v1), (k2, v2)] = some v) :
    v = v1 ∨ v = v2 := by
  rw [List.lookup_cons] at hl
  cases hbe : (g == k1) with
  | true =>
    rw [hbe] at hl
    simp only [Option.some.injEq] at hl
    left
    exact hl.symm
  | false =>
    rw [hbe] at hl
    rw [List.lookup_cons] at hl
    cases hbe2 : (g == k2) with
    | true =>
      rw [hbe2] at hl
      simp only [Option.some.injEq] at hl
      right
      exact hl.symm
    | false =>
      rw [hbe2] at hl
      simp at hl

/-- A concrete container object whose rho and t fields are arrays. -/
def h0 : DictHeap := [[("rho", PyVal.varr 0), ("t", PyVal.varr 1)]]

/-- A concrete array heap: the rho array [1, 2] and the t array [3]. -/
def ah0 : ArrHeap := [[1, 2], [3]]

/-- The concrete container object for the C8 witness. -/
def o0 : PyObj := ⟨0, 0⟩

/-- Witness for C8 at the concrete container h0 / ah0 / o0, mutating
element 0 of the rho array to 5. -/
theorem copy_deepcopy_aliasing_witness :
    (∀ g, readArrField (deepcopyObj h0 ah0 o0).1
        (deepcopyObj h0 ah0 o0).2.1 (deepcopyObj h0 ah0 o0).2.2 g =
      readArrField h0 ah0 o0 g) ∧
    (∀ g rd j y g2,
      getitem (deepcopyObj h0 ah0 o0).1 (deepcopyObj h0 ah0 o0).2.2 g =
        some (.varr rd) →
      readArrField (deepcopyObj h0 ah0 o0).1
          (writeArr (deepcopyObj h0 ah0 o0).2.1 rd j y) o0 g2 =
        readArrField h0 ah0 o0 g2) ∧
    (getitem (copyObj h0 o0).1 (copyObj h0 o0).2 "rho" =
      some (.varr 0)) ∧
    (readArrField (copyObj h0 o0).1 (writeArr ah0 0 0 5) o0 "rho" ≠
      readArrField (copyObj h0 o0).1 ah0 o0 "rho") ∧
    (readArrField (copyObj h0 o0).1 ah0 o0 "rho" =
      readArrField h0 ah0 o0 "rho") :=
  copy_deepcopy_aliasing h0 ah0 o0 "rho" 0 0 5 (by decide)
    (fun g r0 hg => by
      have hcases := lookup_pair_cases g "rho" "t" (PyVal.varr 0)
        (PyVal.varr 1) (PyVal.varr r0) hg
      rcases hcases with hc | hc
      · injection hc with h2
        subst h2
        decide
      · injection hc with h2
        subst h2
        decide)
    rfl (by decide) (by norm_num [ah0])

end Rydiqule
